import Mathlib

/-!
Verification development for the two-video comparison tool (src/main.py).

The embedding is a shallow model of the pure computations of the program:
machine floats are modelled as rationals, Python `int(x)` as truncation
toward zero, the streaming playback loop as an explicit step function on a
small state record, and external collaborators (ffmpeg decode processes,
the Tk widget toolkit) as parameters of the step function.
-/

namespace VideoCompare

/-- Python `int(x)` applied to a numeric value: truncation toward zero. -/
def pyInt (x : ℚ) : ℤ := if 0 ≤ x then ⌊x⌋ else ⌈x⌉

lemma pyInt_of_nonneg (x : ℚ) (h : 0 ≤ x) : pyInt x = ⌊x⌋ := if_pos h

lemma pyInt_intCast (n : ℤ) : pyInt (n : ℚ) = n := by
  unfold pyInt
  rcases le_or_lt 0 ((n : ℚ)) with h | h
  · rw [if_pos h, Int.floor_intCast]
  · rw [if_neg (not_le.mpr h), Int.ceil_intCast]

/-- Argument shape seen by `parse_frame_rate` (src/main.py lines 25-34) once
Python float-string parsing is abstracted: a string containing a slash that
splits into two float-parsable parts, a plain float-parsable string, or a
string whose parsing raises ValueError or TypeError. -/
inductive RateStr where
  | rational (num den : ℚ)
  | decimal (v : ℚ)
  | malformed
  deriving DecidableEq

/-- parse_frame_rate (src/main.py lines 25-34): rational strings give
num/den unless the denominator is zero, decimal strings give their value,
and any parse failure falls back to 30.0. -/
def parse_frame_rate : RateStr → ℚ
  | .rational num den => if den = 0 then 30 else num / den
  | .decimal v => v
  | .malformed => 30

/-- Seek times computed by start_ffmpeg_processes (src/main.py lines
271-272): time_offset1 = frame_number / fps1 and
time_offset2 = (frame_number + video2_offset) / fps2. -/
def start_ffmpeg_seek_times (fps1 fps2 : ℚ) (video2_offset : ℤ)
    (frame_number : ℤ) : ℚ × ℚ :=
  ((frame_number : ℚ) / fps1, ((frame_number : ℚ) + (video2_offset : ℚ)) / fps2)

/-- Seek times computed by display_single_frame (src/main.py lines 422-423),
textually the same computation as in the streaming path. -/
def display_single_frame_seek_times (fps1 fps2 : ℚ) (video2_offset : ℤ)
    (frame_number : ℤ) : ℚ × ℚ :=
  ((frame_number : ℚ) / fps1, ((frame_number : ℚ) + (video2_offset : ℚ)) / fps2)

/-- Frame count of one source, initialize_playback (src/main.py lines
236-237): fc = int(fps * float(duration)). -/
def frame_count (fps duration : ℚ) : ℤ := pyInt (fps * duration)

/-- total_frames as first assigned in initialize_playback (src/main.py line
238): min(fc1, fc2) if fc1 > 0 and fc2 > 0 else 0. -/
def init_total_frames (fc1 fc2 : ℤ) : ℤ :=
  if 0 < fc1 ∧ 0 < fc2 then min fc1 fc2 else 0

/-- Timeline length after the duration_known adjustment (src/main.py lines
246-252): when total_frames <= 0 the pair enters the unknown-length state
(duration_known = False, total_frames = inf), modelled as `none`; otherwise
the length is known, modelled as `some`. -/
def timeline_length (fc1 fc2 : ℤ) : Option ℤ :=
  let t := init_total_frames fc1 fc2
  if t ≤ 0 then none else some t

lemma timeline_length_of_pos (fc1 fc2 : ℤ) (h1 : 0 < fc1) (h2 : 0 < fc2) :
    timeline_length fc1 fc2 = some (min fc1 fc2) := by
  have hmin : ¬ min fc1 fc2 ≤ 0 := not_le.mpr (lt_min h1 h2)
  simp [timeline_length, init_total_frames, h1, h2, hmin]

lemma timeline_length_of_nonpos (fc1 fc2 : ℤ) (h : fc1 ≤ 0 ∨ fc2 ≤ 0) :
    timeline_length fc1 fc2 = none := by
  unfold timeline_length init_total_frames
  have hcond : ¬(0 < fc1 ∧ 0 < fc2) := by
    rintro ⟨h1, h2⟩
    rcases h with h | h
    · exact absurd h1 (not_lt.mpr h)
    · exact absurd h2 (not_lt.mpr h)
  simp [hcond]

/-- calculate_display_size (src/main.py lines 265-267):
ar = w / h; return (int(th * ar), th) if tw / th > ar else (tw, int(tw / ar)). -/
def calculate_display_size (w h tw th : ℤ) : ℤ × ℤ :=
  let ar : ℚ := (w : ℚ) / (h : ℚ)
  if ar < (tw : ℚ) / (th : ℚ) then (pyInt ((th : ℚ) * ar), th)
  else (tw, pyInt ((tw : ℚ) / ar))

/-- Modelled from the spec wording of the Geometry Planner: branch on
areaWidth/areaHeight >= sourceAspect and use `round` on the scaled
dimension. Stated for comparison with `calculate_display_size`. -/
def spec_display_size (w h tw th : ℤ) : ℤ × ℤ :=
  let sourceAspect : ℚ := (w : ℚ) / (h : ℚ)
  if sourceAspect ≤ (tw : ℚ) / (th : ℚ) then
    (round ((th : ℚ) * sourceAspect), th)
  else (tw, round ((tw : ℚ) / sourceAspect))

/-- The spec branch rule with the rounding replaced by floor (equal to the
Python int truncation on these nonnegative values). -/
def spec_display_size_floor (w h tw th : ℤ) : ℤ × ℤ :=
  let sourceAspect : ℚ := (w : ℚ) / (h : ℚ)
  if sourceAspect ≤ (tw : ℚ) / (th : ℚ) then
    (⌊(th : ℚ) * sourceAspect⌋, th)
  else (tw, ⌊(tw : ℚ) / sourceAspect⌋)

/-- Toggle branch of update_frame_display (src/main.py line 369):
combined_frame = frame1_bgr if self.split_pos < self.display_width / 2
else frame2_bgr. Python / is true division, so the comparison is over the
rationals. Frames are modelled as byte lists; the per-mode compositing runs
before _add_video_labels stamps the filename labels onto the result. -/
def toggle_composite (display_width split_pos : ℤ) (frame1 frame2 : List ℕ) :
    List ℕ :=
  if (split_pos : ℚ) < (display_width : ℚ) / 2 then frame1 else frame2

/-- Split position update of _on_video_drag (src/main.py line 391):
self.split_pos = max(0, min(self.display_width, event.x)). -/
def on_video_drag (display_width x : ℤ) : ℤ := max 0 (min display_width x)

/-- Split position update of _on_video_click (src/main.py line 397),
textually the same clamp as in _on_video_drag. -/
def on_video_click (display_width x : ℤ) : ℤ := max 0 (min display_width x)

/-- Split position reset in handle_resize (src/main.py line 529):
self.split_pos = self.display_width // 2 (Python floor division). -/
def resize_split_pos (display_width : ℤ) : ℤ := Int.fdiv display_width 2

/-- Initial split position (src/main.py lines 69-70): display_width is 1200
and split_pos = display_width // 2. -/
def init_split_pos : ℤ := Int.fdiv 1200 2

/-- seek_video (src/main.py lines 400-405): when the seek bar is disabled
(timeline length unknown) the handler returns without touching state;
otherwise current_frame_num = int(float(value)) with no clamping. -/
def seek_video (seek_disabled : Bool) (current_frame_num : ℤ) (value : ℚ) : ℤ :=
  if seek_disabled then current_frame_num else pyInt value

/-- Decidable form of new_frame < self.total_frames, where an unknown
timeline length stands for the float infinity the code stores. -/
def below_total (total_frames : Option ℤ) (n : ℤ) : Bool :=
  match total_frames with
  | none => true
  | some t => n < t

/-- step_frame (src/main.py lines 407-415): ignored while playing, a
backward step is ignored while the seek bar is disabled, and the target
frame is stored only if 0 <= new_frame < total_frames; otherwise
current_frame_num is left unchanged. -/
def step_frame (is_playing seek_disabled : Bool) (total_frames : Option ℤ)
    (current_frame_num direction : ℤ) : ℤ :=
  if is_playing then current_frame_num
  else if seek_disabled && decide (direction < 0) then current_frame_num
  else
    let new_frame := current_frame_num + direction
    if 0 ≤ new_frame ∧ below_total total_frames new_frame then new_frame
    else current_frame_num

/-- _validate_offset_input (src/main.py lines 469-474): Python int parsing
of the entry text is abstracted as an Option value. Without a loaded video
the handler returns at once; a failed parse is swallowed by the except
clause; a successful parse stores the offset and redisplays the current
frame when not playing. Returns the new offset and whether
display_single_frame was invoked. -/
def validate_offset_input (video1_loaded is_playing : Bool)
    (parsed : Option ℤ) (video2_offset : ℤ) : ℤ × Bool :=
  if !video1_loaded then (video2_offset, false)
  else
    match parsed with
    | some n => (n, !is_playing)
    | none => (video2_offset, false)

/-- Mutable state read and written by video_playback_loop: the current and
total frame counters plus the local consecutive_errors counter.
total_frames is `none` in the unknown-duration state (float infinity in
the code). -/
structure LoopState where
  currentFrame : ℤ
  totalFrames : Option ℤ
  consecutiveErrors : ℕ
  deriving DecidableEq, Repr

/-- Environment of one iteration of video_playback_loop: the shared
is_playing flag as read under the lock, whether poll() reports each ffmpeg
process terminated, and the byte lengths the two stdout reads return. -/
structure IterInput where
  isPlaying : Bool
  proc1Ended : Bool
  proc2Ended : Bool
  read1Len : ℕ
  read2Len : ℕ
  deriving DecidableEq, Repr

/-- Outcome of running the loop body: still looping, exited through the
pause check, or exited through handle_playback_end with a status message. -/
inductive LoopResult where
  | running (s : LoopState)
  | paused (s : LoopState)
  | ended (msg : String) (s : LoopState)
  deriving DecidableEq, Repr

/-- Read-failure test of the loop (src/main.py line 326): not raw_frame1 or
not raw_frame2 or len(raw_frame1) != frame_size or len(raw_frame2) !=
frame_size, with emptiness of a bytes object being falsiness. -/
def badRead (frame_size l1 l2 : ℕ) : Bool :=
  (l1 == 0) || (l2 == 0) || (l1 != frame_size) || (l2 != frame_size)

/-- End-of-timeline test of the loop (src/main.py line 321):
self.current_frame_num >= self.total_frames - 1; always false against the
float infinity stored in the unknown-duration state. -/
def boundReached (s : LoopState) : Bool :=
  match s.totalFrames with
  | none => false
  | some t => t - 1 ≤ s.currentFrame

/-- Timeline finalization of handle_playback_end (src/main.py lines
341-344): an unknown duration is fixed to the frame index reached. The
is_playing reset and widget updates are outside this state record. -/
def handle_playback_end (s : LoopState) : LoopState :=
  match s.totalFrames with
  | none => { s with totalFrames := some s.currentFrame }
  | some _ => s

/-- One iteration of video_playback_loop (src/main.py lines 312-337), with
frame_size = display_width * display_height * 3 passed in: check the shared
flag, check both processes alive, check the timeline bound, read both
frames, and either count a consecutive error (ending playback at the tenth)
or reset the counter and advance the current frame. -/
def loopStep (frame_size : ℕ) (s : LoopState) (it : IterInput) : LoopResult :=
  if !it.isPlaying then .paused s
  else if it.proc1Ended || it.proc2Ended then
    .ended "Video stream ended" (handle_playback_end s)
  else if boundReached s then .ended "Finished" (handle_playback_end s)
  else if badRead frame_size it.read1Len it.read2Len then
    if 10 ≤ s.consecutiveErrors + 1 then
      .ended "Error: Playback stopped"
        (handle_playback_end { s with consecutiveErrors := s.consecutiveErrors + 1 })
    else .running { s with consecutiveErrors := s.consecutiveErrors + 1 }
  else .running { s with consecutiveErrors := 0, currentFrame := s.currentFrame + 1 }

/-- Iterated loop body over a finite trace of iteration environments. -/
def runLoop (frame_size : ℕ) (s : LoopState) : List IterInput → LoopResult
  | [] => .running s
  | it :: rest =>
    match loopStep frame_size s it with
    | .running s2 => runLoop frame_size s2 rest
    | r => r

/-- C1: for every timeline frame index and every integer offset, negative
values included, source A is requested at t / fpsA seconds and source B at
(t + offsetFrames) / fpsB seconds, identically in the streaming fetch path
(start_ffmpeg_processes) and the single-shot fetch path
(display_single_frame). -/
theorem seek_time_translation (fps1 fps2 : ℚ) (off t : ℤ) :
    start_ffmpeg_seek_times fps1 fps2 off t =
      ((t : ℚ) / fps1, ((t : ℚ) + (off : ℚ)) / fps2) ∧
    display_single_frame_seek_times fps1 fps2 off t =
      ((t : ℚ) / fps1, ((t : ℚ) + (off : ℚ)) / fps2) ∧
    display_single_frame_seek_times fps1 fps2 off t =
      start_ffmpeg_seek_times fps1 fps2 off t :=
  ⟨rfl, rfl, rfl⟩

/-- C8: parsing a rational frame-rate string with nonzero denominator gives
num/den, a zero denominator gives the 30.0 fallback, a decimal string gives
its value, and a failed parse gives 30.0; the function is total, so loading
is never aborted by a malformed frame-rate field. -/
theorem parse_frame_rate_fallback (num den v : ℚ) (hden : den ≠ 0) :
    parse_frame_rate (.rational num den) = num / den ∧
    parse_frame_rate (.rational num 0) = 30 ∧
    parse_frame_rate (.decimal v) = v ∧
    parse_frame_rate .malformed = 30 := by
  refine ⟨?_, ?_, rfl, rfl⟩
  · simp [parse_frame_rate, hden]
  · simp [parse_frame_rate]

/-- Witness for parse_frame_rate_fallback at num = 50, den = 2, v = 59/2. -/
theorem parse_frame_rate_fallback_witness :
    parse_frame_rate (.rational 50 2) = 25 ∧
    parse_frame_rate (.rational 50 0) = 30 ∧
    parse_frame_rate (.decimal (59 / 2)) = 59 / 2 ∧
    parse_frame_rate .malformed = 30 := by
  have h := parse_frame_rate_fallback 50 2 (59 / 2) (by norm_num)
  exact ⟨by rw [h.1]; norm_num, h.2.1, h.2.2.1, h.2.2.2⟩

/-- C2: with nonnegative parsed frame rates and durations, each frameCount
is floor(frameRate * duration); the timeline length is the minimum of the
two counts when both are positive and the unknown sentinel when either is
non-positive. -/
theorem frame_count_and_timeline (fps1 dur1 fps2 dur2 : ℚ)
    (h1 : 0 ≤ fps1) (h2 : 0 ≤ dur1) (h3 : 0 ≤ fps2) (h4 : 0 ≤ dur2) :
    frame_count fps1 dur1 = ⌊fps1 * dur1⌋ ∧
    frame_count fps2 dur2 = ⌊fps2 * dur2⌋ ∧
    (0 < frame_count fps1 dur1 → 0 < frame_count fps2 dur2 →
      timeline_length (frame_count fps1 dur1) (frame_count fps2 dur2) =
        some (min (frame_count fps1 dur1) (frame_count fps2 dur2))) ∧
    (frame_count fps1 dur1 ≤ 0 ∨ frame_count fps2 dur2 ≤ 0 →
      timeline_length (frame_count fps1 dur1) (frame_count fps2 dur2) = none) :=
  ⟨pyInt_of_nonneg _ (mul_nonneg h1 h2), pyInt_of_nonneg _ (mul_nonneg h3 h4),
    fun hp1 hp2 => timeline_length_of_pos _ _ hp1 hp2,
    fun hle => timeline_length_of_nonpos _ _ hle⟩

/-- Witness for frame_count_and_timeline: 30 fps for 10 s against 25 fps
for 2 s gives counts 300 and 50 and timeline length 50. -/
theorem frame_count_and_timeline_witness :
    frame_count 30 10 = ⌊(30 : ℚ) * 10⌋ ∧
    timeline_length (frame_count 30 10) (frame_count 25 2) =
      some (min (frame_count 30 10) (frame_count 25 2)) := by
  have h := frame_count_and_timeline 30 10 25 2 (by norm_num) (by norm_num)
    (by norm_num) (by norm_num)
  exact ⟨h.1, h.2.2.1 (by norm_num [frame_count, pyInt])
    (by norm_num [frame_count, pyInt])⟩

/-- C4 counterexample: for a 317x100 source in a 100x10 area the code
truncates 10 * 3.17 = 31.7 down to width 31, while the claimed rounding
rule gives width 32, so the two disagree at this input. -/
theorem display_size_rounding_counterexample :
    calculate_display_size 317 100 100 10 = (31, 10) ∧
    spec_display_size 317 100 100 10 = (32, 10) ∧
    calculate_display_size 317 100 100 10 ≠ spec_display_size 317 100 100 10 := by
  have hc : calculate_display_size 317 100 100 10 = (31, 10) := by
    norm_num [calculate_display_size, pyInt]
  have hs : spec_display_size 317 100 100 10 = (32, 10) := by
    norm_num [spec_display_size, round_eq]
  exact ⟨hc, hs, by rw [hc, hs]; decide⟩

/-- C4 amended: with positive dimensions and area, the computed geometry
follows the spec branch rule with floor (truncation) in place of round:
when areaWidth/areaHeight >= sourceAspect the height is areaHeight and the
width is floor(areaHeight * sourceAspect), otherwise the width is areaWidth
and the height is floor(areaWidth / sourceAspect); the code tests the
strict inequality but at exact equality both branches coincide. -/
theorem display_size_matches_floor_rule (w h tw th : ℤ)
    (hw : 0 < w) (hh : 0 < h) (htw : 0 < tw) (hth : 0 < th) :
    calculate_display_size w h tw th = spec_display_size_floor w h tw th := by
  have hwq : (0 : ℚ) < (w : ℚ) := by exact_mod_cast hw
  have hhq : (0 : ℚ) < (h : ℚ) := by exact_mod_cast hh
  have htwq : (0 : ℚ) < (tw : ℚ) := by exact_mod_cast htw
  have hthq : (0 : ℚ) < (th : ℚ) := by exact_mod_cast hth
  have har : (0 : ℚ) < (w : ℚ) / (h : ℚ) := div_pos hwq hhq
  simp only [calculate_display_size, spec_display_size_floor]
  rcases lt_trichotomy ((w : ℚ) / (h : ℚ)) ((tw : ℚ) / (th : ℚ)) with hlt | heq | hgt
  · rw [if_pos hlt, if_pos hlt.le,
      pyInt_of_nonneg _ (mul_nonneg hthq.le har.le)]
  · rw [if_neg (by rw [heq]; exact lt_irrefl _), if_pos heq.le, heq]
    have hmul : (th : ℚ) * ((tw : ℚ) / (th : ℚ)) = (tw : ℚ) := by
      rw [mul_comm]; exact div_mul_cancel₀ _ (ne_of_gt hthq)
    have hdiv : (tw : ℚ) / ((tw : ℚ) / (th : ℚ)) = (th : ℚ) := by
      rw [div_div_eq_mul_div, mul_comm]
      exact mul_div_cancel_right₀ _ (ne_of_gt htwq)
    rw [hmul, hdiv, Int.floor_intCast, pyInt_intCast]
  · rw [if_neg (not_lt.mpr hgt.le), if_neg (not_le.mpr hgt),
      pyInt_of_nonneg _ (div_nonneg htwq.le har.le)]

/-- Witness for display_size_matches_floor_rule at the 317x100 source and
100x10 area. -/
theorem display_size_matches_floor_rule_witness :
    (0 : ℤ) < 317 ∧
    calculate_display_size 317 100 100 10 = spec_display_size_floor 317 100 100 10 :=
  ⟨by norm_num, display_size_matches_floor_rule 317 100 100 10 (by norm_num)
    (by norm_num) (by norm_num) (by norm_num)⟩

/-- C5: in Toggle mode the composited buffer, taken before the filename
labels are stamped, is one of the two input frames unaltered: frame A
exactly when the split position is left of the output-width midpoint and
frame B otherwise, and when the inputs differ the output matches only the
selected one. -/
theorem toggle_is_one_input (display_width split_pos : ℤ) (f1 f2 : List ℕ) :
    (toggle_composite display_width split_pos f1 f2 = f1 ∨
      toggle_composite display_width split_pos f1 f2 = f2) ∧
    (2 * split_pos < display_width →
      toggle_composite display_width split_pos f1 f2 = f1) ∧
    (display_width ≤ 2 * split_pos →
      toggle_composite display_width split_pos f1 f2 = f2) ∧
    (f1 ≠ f2 → ¬(toggle_composite display_width split_pos f1 f2 = f1 ∧
      toggle_composite display_width split_pos f1 f2 = f2)) := by
  have key : ((split_pos : ℚ) < (display_width : ℚ) / 2) ↔
      2 * split_pos < display_width := by
    rw [lt_div_iff₀ (by norm_num : (0 : ℚ) < 2), mul_comm]
    exact_mod_cast Iff.rfl
  unfold toggle_composite
  by_cases hc : (split_pos : ℚ) < (display_width : ℚ) / 2
  · rw [if_pos hc]
    exact ⟨Or.inl rfl, fun _ => rfl,
      fun hge => absurd (key.mp hc) (not_lt.mpr hge),
      fun hne hb => hne hb.2⟩
  · rw [if_neg hc]
    exact ⟨Or.inr rfl,
      fun hlt => absurd hlt (by simpa using key.not.mp hc),
      fun _ => rfl, fun hne hb => hne hb.1.symm⟩

/-- Witness for toggle_is_one_input on 1-byte frames with width 10 and
split positions 4 and 5. -/
theorem toggle_is_one_input_witness :
    toggle_composite 10 4 [7] [9] = [7] ∧ toggle_composite 10 5 [7] [9] = [9] :=
  ⟨(toggle_is_one_input 10 4 [7] [9]).2.1 (by decide),
    (toggle_is_one_input 10 5 [7] [9]).2.2.1 (by decide)⟩

/-- C9: with a nonnegative output width, the pointer handlers clamp any
click or drag coordinate into [0, width] (coordinates below 0 go to 0,
above the width go to the width, in-range coordinates are kept), and the
resize reset stores width // 2, which also lies in [0, width]; the initial
split position is 1200 // 2 = 600. -/
theorem split_position_invariant (display_width x : ℤ)
    (hW : 0 ≤ display_width) :
    (0 ≤ on_video_drag display_width x ∧
      on_video_drag display_width x ≤ display_width) ∧
    (0 ≤ on_video_click display_width x ∧
      on_video_click display_width x ≤ display_width) ∧
    (x < 0 → on_video_drag display_width x = 0) ∧
    (display_width < x → on_video_drag display_width x = display_width) ∧
    (0 ≤ x → x ≤ display_width → on_video_drag display_width x = x) ∧
    (0 ≤ resize_split_pos display_width ∧
      resize_split_pos display_width ≤ display_width) ∧
    init_split_pos = 600 := by
  have hfd : resize_split_pos display_width = display_width / 2 :=
    Int.fdiv_eq_ediv _ (by norm_num)
  have hinit : init_split_pos = 600 := by decide
  unfold on_video_drag on_video_click
  rw [hfd, hinit]
  omega

/-- Witness for split_position_invariant at width 1200 and pointer
coordinate 1500. -/
theorem split_position_invariant_witness :
    (0 : ℤ) ≤ 1200 ∧ on_video_drag 1200 1500 = 1200 := by
  have h := split_position_invariant 1200 1500 (by norm_num)
  exact ⟨by norm_num, h.2.2.2.1 (by norm_num)⟩

/-- C10: a string that fails to parse as an integer leaves the stored
offset unchanged and triggers no redisplay; a successfully parsed integer
stores the parsed value (and redisplays the frame exactly when not
playing); without a loaded video nothing changes at all. -/
theorem offset_input_validation (loaded playing : Bool) (off n : ℤ) :
    validate_offset_input loaded playing none off = (off, false) ∧
    (loaded = true →
      validate_offset_input loaded playing (some n) off = (n, !playing)) ∧
    validate_offset_input false playing (some n) off = (off, false) := by
  refine ⟨?_, fun hl => ?_, rfl⟩
  · cases loaded <;> rfl
  · subst hl; rfl

/-- Witness for offset_input_validation with a loaded video, paused, parsed
value -12 and previous offset 3. -/
theorem offset_input_validation_witness :
    validate_offset_input true false none 3 = (3, false) ∧
    validate_offset_input true false (some (-12)) 3 = (-12, true) :=
  ⟨(offset_input_validation true false 3 (-12)).1,
    (offset_input_validation true false 3 (-12)).2.1 rfl⟩

lemma loopStep_bad (fs : ℕ) (s : LoopState) (it : IterInput)
    (hp : it.isPlaying = true) (h1 : it.proc1Ended = false)
    (h2 : it.proc2Ended = false) (hb : boundReached s = false)
    (hr : badRead fs it.read1Len it.read2Len = true)
    (hcnt : s.consecutiveErrors + 1 < 10) :
    loopStep fs s it =
      .running { s with consecutiveErrors := s.consecutiveErrors + 1 } := by
  simp [loopStep, hp, h1, h2, hb, hr, Nat.not_le.mpr hcnt]

lemma runLoop_cons (fs : ℕ) (s s2 : LoopState) (it : IterInput)
    (rest : List IterInput) (h : loopStep fs s it = .running s2) :
    runLoop fs s (it :: rest) = runLoop fs s2 rest := by
  simp only [runLoop, h]

lemma runLoop_first (fs : ℕ) (s : LoopState) (it : IterInput) (r : LoopResult)
    (rest : List IterInput) (h : loopStep fs s it = r)
    (hr : ∀ s2 : LoopState, r ≠ .running s2) :
    runLoop fs s (it :: rest) = r := by
  unfold runLoop
  rw [h]
  match r with
  | .running s2 => exact absurd rfl (hr s2)
  | .paused _ => rfl
  | .ended _ _ => rfl

lemma runLoop_bad_reads (fs : ℕ) (it : IterInput)
    (hp : it.isPlaying = true) (h1 : it.proc1Ended = false)
    (h2 : it.proc2Ended = false)
    (hr : badRead fs it.read1Len it.read2Len = true) :
    ∀ (k : ℕ) (s : LoopState), boundReached s = false →
      s.consecutiveErrors + k < 10 →
      runLoop fs s (List.replicate k it) =
        .running { s with consecutiveErrors := s.consecutiveErrors + k }
  | 0, s, _, _ => by simp [runLoop]
  | k + 1, s, hb, hcnt => by
    rw [List.replicate_succ,
      runLoop_cons fs s _ it _ (loopStep_bad fs s it hp h1 h2 hb hr (by omega)),
      runLoop_bad_reads fs it hp h1 h2 hr k
        { s with consecutiveErrors := s.consecutiveErrors + 1 } hb
        (by show s.consecutiveErrors + 1 + k < 10 ; omega)]
    simp only [LoopResult.running.injEq, LoopState.mk.injEq]
    exact ⟨trivial, trivial, by omega⟩

lemma runLoop_bad_reads_end (fs : ℕ) (it : IterInput)
    (hp : it.isPlaying = true) (h1 : it.proc1Ended = false)
    (h2 : it.proc2Ended = false)
    (hr : badRead fs it.read1Len it.read2Len = true) :
    ∀ (k : ℕ) (s : LoopState), boundReached s = false →
      s.consecutiveErrors + k = 10 → 1 ≤ k →
      runLoop fs s (List.replicate k it) =
        .ended "Error: Playback stopped"
          (handle_playback_end { s with consecutiveErrors := 10 })
  | 1, s, hb, hcnt, _ => by
    have hc : s.consecutiveErrors = 9 := by omega
    rw [List.replicate_succ, List.replicate_zero]
    refine runLoop_first fs s it _ [] ?_ (fun s2 => by simp)
    simp [loopStep, hp, h1, h2, hb, hr, hc]
  | k + 2, s, hb, hcnt, _ => by
    rw [List.replicate_succ,
      runLoop_cons fs s _ it _ (loopStep_bad fs s it hp h1 h2 hb hr (by omega))]
    exact runLoop_bad_reads_end fs it hp h1 h2 hr (k + 1)
      { s with consecutiveErrors := s.consecutiveErrors + 1 } hb
      (by show s.consecutiveErrors + 1 + (k + 1) = 10 ; omega) (by omega)

/-- C6: during streaming playback, a live iteration ends playback at once
when either decode process has terminated; from a zero error count, k < 10
consecutive short or empty reads leave the loop running with the error
counter at k, the tenth consecutive bad read ends playback with the error
status, and one full-sized pair of reads resets the counter to zero while
advancing the frame. -/
theorem streaming_failure_policy (fs : ℕ) (s : LoopState) (it : IterInput)
    (hp : it.isPlaying = true) (hb : boundReached s = false)
    (hc0 : s.consecutiveErrors = 0) :
    ((it.proc1Ended = true ∨ it.proc2Ended = true) →
      loopStep fs s it = .ended "Video stream ended" (handle_playback_end s)) ∧
    (∀ k : ℕ, k < 10 → it.proc1Ended = false → it.proc2Ended = false →
      badRead fs it.read1Len it.read2Len = true →
      runLoop fs s (List.replicate k it) =
        .running { s with consecutiveErrors := k }) ∧
    (it.proc1Ended = false → it.proc2Ended = false →
      badRead fs it.read1Len it.read2Len = true →
      runLoop fs s (List.replicate 10 it) =
        .ended "Error: Playback stopped"
          (handle_playback_end { s with consecutiveErrors := 10 })) ∧
    (∀ s2 : LoopState, boundReached s2 = false →
      it.proc1Ended = false → it.proc2Ended = false →
      badRead fs it.read1Len it.read2Len = false →
      loopStep fs s2 it =
        .running { s2 with consecutiveErrors := 0,
                           currentFrame := s2.currentFrame + 1 }) := by
  refine ⟨fun hends => ?_, fun k hk h1 h2 hr => ?_, fun h1 h2 hr => ?_,
    fun s2 hb2 h1 h2 hr => ?_⟩
  · have : (it.proc1Ended || it.proc2Ended) = true := by
      rcases hends with h | h <;> simp [h]
    simp [loopStep, hp, this]
  · have hrun := runLoop_bad_reads fs it hp h1 h2 hr k s hb (by omega)
    rw [hc0] at hrun
    simpa using hrun
  · exact runLoop_bad_reads_end fs it hp h1 h2 hr 10 s hb (by omega) (by omega)
  · simp [loopStep, hp, h1, h2, hb2, hr]

/-- Witness for streaming_failure_policy with frame_size 10, an empty read
as the bad read, timeline length 100: a dead stream ends playback, 9 bad
reads keep it running, 10 end it, and a good read resets the counter. -/
theorem streaming_failure_policy_witness :
    loopStep 10 ⟨0, some 100, 0⟩ ⟨true, true, false, 10, 10⟩ =
      .ended "Video stream ended" (handle_playback_end ⟨0, some 100, 0⟩) ∧
    runLoop 10 ⟨0, some 100, 0⟩ (List.replicate 9 ⟨true, false, false, 0, 0⟩) =
      .running ⟨0, some 100, 9⟩ ∧
    runLoop 10 ⟨0, some 100, 0⟩ (List.replicate 10 ⟨true, false, false, 0, 0⟩) =
      .ended "Error: Playback stopped" (handle_playback_end ⟨0, some 100, 10⟩) ∧
    loopStep 10 ⟨5, some 100, 3⟩ ⟨true, false, false, 10, 10⟩ =
      .running ⟨6, some 100, 0⟩ := by
  have hdead := streaming_failure_policy 10 ⟨0, some 100, 0⟩
    ⟨true, true, false, 10, 10⟩ rfl rfl rfl
  have hbad := streaming_failure_policy 10 ⟨0, some 100, 0⟩
    ⟨true, false, false, 0, 0⟩ rfl rfl rfl
  have hgood := streaming_failure_policy 10 ⟨0, some 100, 0⟩
    ⟨true, false, false, 10, 10⟩ rfl rfl rfl
  exact ⟨hdead.1 (Or.inl rfl), hbad.2.1 9 (by omega) rfl rfl rfl,
    hbad.2.2.1 rfl rfl rfl,
    hgood.2.2.2 ⟨5, some 100, 3⟩ rfl rfl rfl rfl⟩

/-- C7 counterexample: with timeline length 150 and playback started at
frame 149, the loop ends on its first iteration with status "Finished" and
currentFrame still 149 even though both streams keep delivering full
frames: the run performs zero frame advancements, not one, because the
bound check runs before any read. -/
theorem finish_at_last_frame_counterexample :
    runLoop 3 ⟨149, some 150, 0⟩
      [⟨true, false, false, 3, 3⟩, ⟨true, false, false, 3, 3⟩] =
      .ended "Finished" ⟨149, some 150, 0⟩ ∧ (149 : ℤ) + 1 ≠ 149 :=
  ⟨rfl, by decide⟩

/-- C7 amended: a 10 s source at 30 fps paired with a 5 s source at 30 fps
gives timeline length 150 (the shorter count); starting playback at frame
149 ends on the first live loop iteration with status "Finished" and zero
frame advancements, currentFrame staying 149, because the check
current >= total - 1 precedes the read and advance step. -/
theorem finish_at_last_frame (fs : ℕ) (it : IterInput)
    (hp : it.isPlaying = true) (h1 : it.proc1Ended = false)
    (h2 : it.proc2Ended = false) :
    timeline_length (frame_count 30 10) (frame_count 30 5) = some 150 ∧
    loopStep fs ⟨149, some 150, 0⟩ it = .ended "Finished" ⟨149, some 150, 0⟩ := by
  constructor
  · norm_num [timeline_length, init_total_frames, frame_count, pyInt]
  · have hbnd : boundReached ⟨149, some 150, 0⟩ = true := by decide
    simp [loopStep, hp, h1, h2, hbnd, handle_playback_end]

/-- Witness for finish_at_last_frame with frame_size 3 and live streams. -/
theorem finish_at_last_frame_witness :
    loopStep 3 ⟨149, some 150, 0⟩ ⟨true, false, false, 3, 3⟩ =
      .ended "Finished" ⟨149, some 150, 0⟩ :=
  (finish_at_last_frame 3 ⟨true, false, false, 3, 3⟩ rfl rfl rfl).2

/-- C3 counterexample: with timeline length known to be 150, the seek
handler stores a requested frame of 150 (one past the valid range) as is:
currentFrame becomes 150, which is not below the timeline length, so
out-of-range seek requests are not clamped. -/
theorem seek_video_not_clamped :
    timeline_length 150 300 = some 150 ∧
    seek_video false 0 150 = 150 ∧ ¬((150 : ℤ) < 150) := by
  refine ⟨?_, ?_, by decide⟩
  · norm_num [timeline_length, init_total_frames]
  · norm_num [seek_video, pyInt]

/-- C3 amended: when the timeline length t is known, mutations keep
0 <= currentFrame < t as follows: a seek whose truncated request lies in
range stores it, but an out-of-range seek request is stored unclamped (the
seek bar producing these values is configured with range [0, t-1]); a step
to an out-of-range target is rejected with currentFrame left unchanged,
which for the step size of 1 the code uses coincides with clamping; and a
playback-loop iteration that keeps running leaves currentFrame in range. -/
theorem current_frame_invariant (t cf direction : ℤ) (v : ℚ)
    (is_playing : Bool) (fs : ℕ) (s s2 : LoopState) (it : IterInput)
    (hcf : 0 ≤ cf ∧ cf < t) (hv : 0 ≤ pyInt v ∧ pyInt v < t) :
    (0 ≤ seek_video false cf v ∧ seek_video false cf v < t) ∧
    (0 ≤ step_frame is_playing false (some t) cf direction ∧
      step_frame is_playing false (some t) cf direction < t) ∧
    (s.totalFrames = some t → 0 ≤ s.currentFrame → s.currentFrame < t →
      loopStep fs s it = .running s2 →
      0 ≤ s2.currentFrame ∧ s2.currentFrame < t) := by
  refine ⟨?_, ?_, fun hst hge hlt hrun => ?_⟩
  · simpa [seek_video] using hv
  · unfold step_frame below_total
    cases is_playing
    · simp only [Bool.false_eq_true, if_false, Bool.false_and]
      split_ifs with hcond
      · simp only [decide_eq_true_eq] at hcond
        exact ⟨hcond.1, hcond.2⟩
      · exact hcf
    · simpa using hcf
  · simp only [loopStep] at hrun
    split_ifs at hrun with hplay hproc hbnd hbad hcnt
    · rw [LoopResult.running.injEq] at hrun
      rw [← hrun]
      exact ⟨hge, hlt⟩
    · rw [LoopResult.running.injEq] at hrun
      rw [← hrun]
      have hnb : ¬(t - 1 ≤ s.currentFrame) := by
        simpa [boundReached, hst] using hbnd
      show 0 ≤ s.currentFrame + 1 ∧ s.currentFrame + 1 < t
      omega

/-- Witness for current_frame_invariant with timeline length 150, current
frame 5, a seek request of 7 and a forward step, plus a live good-read loop
iteration advancing 5 to 6. -/
theorem current_frame_invariant_witness :
    (0 ≤ seek_video false 5 7 ∧ seek_video false 5 7 < 150) ∧
    (0 ≤ step_frame false false (some 150) 5 1 ∧
      step_frame false false (some 150) 5 1 < 150) ∧
    (0 ≤ (6 : ℤ) ∧ (6 : ℤ) < 150) := by
  have h := current_frame_invariant 150 5 1 7 false 3 ⟨5, some 150, 0⟩
    ⟨6, some 150, 0⟩ ⟨true, false, false, 3, 3⟩ (by norm_num)
    (by norm_num [pyInt])
  exact ⟨h.1, h.2.1, h.2.2 rfl (by norm_num) (by norm_num) rfl⟩

end VideoCompare
